import Mathlib

/-!
Verification of the Premiere MCP server core (`index.js` / `dialog-handler.js`):
the correlated-request channel (`sendToPremmiere` and the WebSocket message
handler), crash detection (`checkForCrash`, `getLatestCrashLog`), the recovery
orchestrator (`restartPremiere`) and the autonomous test pipeline
(`runAutonomousTestCycle`), embedded shallowly as pure Lean functions.
-/

namespace PremiereMCP

/-- A crash-report file in `CONFIG.crashLogDir`, as seen by `getLatestCrashLog`
(name, `statSync(...).mtime.getTime()`, file contents). -/
structure CrashFile where
  name : String
  mtime : Nat
  content : String
deriving DecidableEq, Repr

/-- `pat` is a prefix of `s` (on character lists). -/
def charsPrefixOf : List Char → List Char → Bool
  | [], _ => true
  | _ :: _, [] => false
  | p :: ps, c :: cs => p == c && charsPrefixOf ps cs

/-- `pat` occurs as a contiguous substring of `s` (on character lists). -/
def charsContains (pat : List Char) : List Char → Bool
  | [] => pat.isEmpty
  | c :: cs => charsPrefixOf pat (c :: cs) || charsContains pat cs

/-- JS `s.includes(pat)` (substring containment). -/
def strContains (s pat : String) : Bool :=
  charsContains pat.data s.data

/-- JS `s.endsWith(pat)`. -/
def strEndsWith (s pat : String) : Bool :=
  charsPrefixOf pat.data.reverse s.data.reverse

/-- JS `s.slice(0, 5000)`, the crash-report capture cap. -/
def capCrashLog (s : String) : String :=
  ⟨s.data.take 5000⟩

/-- The filter in `getLatestCrashLog`:
`f.includes("Adobe Premiere Pro") && f.endsWith(".crash")`. -/
def isCrashCandidate (f : CrashFile) : Bool :=
  strContains f.name "Adobe Premiere Pro" && strEndsWith f.name ".crash"

/-- Insert into a list sorted descending by `mtime` (stable: the inserted file
goes in front of equal-`mtime` files already present, matching the stable JS
`sort((a, b) => b.mtime - a.mtime)` when folded from the head). -/
def insertByMtimeDesc (f : CrashFile) : List CrashFile → List CrashFile
  | [] => [f]
  | g :: gs => if g.mtime ≤ f.mtime then f :: g :: gs else g :: insertByMtimeDesc f gs

/-- Stable sort, descending by `mtime`: the JS `.sort((a, b) => b.mtime - a.mtime)`. -/
def sortByMtimeDesc : List CrashFile → List CrashFile
  | [] => []
  | f :: fs => insertByMtimeDesc f (sortByMtimeDesc fs)

/-- `getLatestCrashLog`: keep candidate crash reports, sort newest-first; if the
newest one's mtime is within the last 60 s, return its text capped at 5000
characters, else return `""`.  (`now` plays `Date.now()`; the directory listing
is passed explicitly.) -/
def getLatestCrashLog (now : Nat) (dir : List CrashFile) : String :=
  let files := sortByMtimeDesc (dir.filter isCrashCandidate)
  match files with
  | [] => ""
  | f :: _ => if now - 60000 < f.mtime then capCrashLog f.content else ""

/-- How a pending request's promise was settled. -/
inductive Outcome where
  | success (result : Option String)
  | remoteError (message : String)
  | timedOut
deriving DecidableEq, Repr

/-- The module-level mutable state of the server that the channel and the
liveness monitor touch, plus two ghost logs (`sent`, `settled`) recording the
ids handed out by `sendToPremmiere` and the settlements performed, in order. -/
structure ChannelState where
  premiereConnection : Option Nat := none
  lastHeartbeat : Nat := 0
  requestIdCounter : Nat := 0
  pending : List Nat := []
  timersStarted : Nat := 0
  lastCrashTime : Nat := 0
  lastCrashLog : String := ""
  sent : List Nat := []
  settled : List (Nat × Outcome) := []
deriving DecidableEq, Repr

/-- The ids of the settled requests, in settlement order. -/
def settledIds (s : ChannelState) : List Nat :=
  s.settled.map Prod.fst

/-- The error message thrown by `sendToPremmiere` when `premiereConnection` is null. -/
def notConnectedMsg : String :=
  "Premiere not connected. Is it running with the CEP panel installed?"

/-- `sendToPremmiere` up to its first suspension point: throw if not connected;
otherwise take the next correlation id (`++requestIdCounter`), start the
timeout timer, and register the pending request.  Returns the assigned id and
the updated state. -/
def sendToPremmiere (s : ChannelState) : Except String (Nat × ChannelState) :=
  match s.premiereConnection with
  | none => .error notConnectedMsg
  | some _ =>
    let requestId := s.requestIdCounter + 1
    .ok (requestId,
      { s with requestIdCounter := requestId,
               timersStarted := s.timersStarted + 1,
               pending := requestId :: s.pending,
               sent := s.sent ++ [requestId] })

/-- JS truthiness of `msg.error` (`string | null`): null and `""` are falsy. -/
def errTruthy : Option String → Bool
  | none => false
  | some m => !(m == "")

/-- The `pending.resolve(msg)` closure: `if (msg.error) reject(new Error(msg.error))
else resolve(msg.result)`. -/
def responseOutcome (result error : Option String) : Outcome :=
  if errTruthy error then .remoteError (error.getD "") else .success result

/-- One externally triggered event against the server state. -/
inductive Event where
  | connect (now : Nat)
  | heartbeat (now : Nat)
  | disconnect
  | send
  | response (requestId : Nat) (result : Option String) (error : Option String)
  | fireTimeout (requestId : Nat)
  | checkCrash (isRunning : Bool) (now : Nat) (dir : List CrashFile)
deriving DecidableEq

/-- `checkForCrash` (run after the 1 s settle delay that follows a close):
`if (!isRunning && lastHeartbeat > 0) { lastCrashTime = now; lastCrashLog = getLatestCrashLog() }`. -/
def checkForCrash (isRunning : Bool) (now : Nat) (dir : List CrashFile)
    (s : ChannelState) : ChannelState :=
  if isRunning = false ∧ 0 < s.lastHeartbeat then
    { s with lastCrashTime := now, lastCrashLog := getLatestCrashLog now dir }
  else s

/-- The event handlers of the server, one atomic step each:
`wss.on("connection")` (attach + `lastHeartbeat = Date.now()`), the heartbeat
branch of the message handler, `ws.on("close")`, a `sendToPremmiere` call, the
response branch of the message handler (guarded by `msg.requestId` truthiness
and a hit in `pendingRequests`), a timeout timer firing (only possible while
its entry is still pending, since resolution calls `clearTimeout`), and the
deferred `checkForCrash`. -/
def step (s : ChannelState) : Event → ChannelState
  | .connect now => { s with premiereConnection := some 0, lastHeartbeat := now }
  | .heartbeat now => { s with lastHeartbeat := now }
  | .disconnect => { s with premiereConnection := none }
  | .send =>
    match sendToPremmiere s with
    | .error _ => s
    | .ok (_, s') => s'
  | .response rid result error =>
    if rid ≠ 0 ∧ rid ∈ s.pending then
      { s with pending := s.pending.erase rid,
               settled := s.settled ++ [(rid, responseOutcome result error)] }
    else s
  | .fireTimeout rid =>
    if rid ∈ s.pending then
      { s with pending := s.pending.erase rid,
               settled := s.settled ++ [(rid, .timedOut)] }
    else s
  | .checkCrash isRunning now dir => checkForCrash isRunning now dir s

/-- Run a sequence of events from the initial module state. -/
def run (es : List Event) : ChannelState :=
  es.foldl step {}

/-- The channel invariant, over the counter, the pending ids, the assigned
ids and the settlement log: pending ids are distinct, positive and bounded by
the counter; settled ids are bounded, distinct and disjoint from pending; the
assigned ids are strictly increasing; pending and settled ids all come from
actual sends; and every assigned id is still pending or already settled. -/
def InvL (counter : Nat) (pending sent : List Nat)
    (settled : List (Nat × Outcome)) : Prop :=
  pending.Nodup ∧
  (∀ i ∈ pending, 0 < i ∧ i ≤ counter) ∧
  (∀ i ∈ settled.map Prod.fst, i ≤ counter) ∧
  (∀ i ∈ pending, i ∉ settled.map Prod.fst) ∧
  (settled.map Prod.fst).Nodup ∧
  sent.Pairwise (· < ·) ∧
  (∀ i ∈ sent, i ≤ counter) ∧
  (∀ i ∈ pending, i ∈ sent) ∧
  (∀ i ∈ settled.map Prod.fst, i ∈ sent) ∧
  (∀ i ∈ sent, i ∈ pending ∨ i ∈ settled.map Prod.fst)

/-- The channel invariant on a server state. -/
def Inv (s : ChannelState) : Prop :=
  InvL s.requestIdCounter s.pending s.sent s.settled

theorem invL_send (counter : Nat) (pending sent : List Nat)
    (settled : List (Nat × Outcome)) (h : InvL counter pending sent settled) :
    InvL (counter + 1) ((counter + 1) :: pending) (sent ++ [counter + 1]) settled := by
  obtain ⟨h1, h2, h3, h4, h5, h6, h7, h8, h9, h10⟩ := h
  have hnotpend : counter + 1 ∉ pending := fun hmem => by
    have := (h2 _ hmem).2; omega
  have hnotsettled : counter + 1 ∉ settled.map Prod.fst := fun hmem => by
    have := h3 _ hmem; omega
  refine ⟨List.nodup_cons.mpr ⟨hnotpend, h1⟩, ?_, ?_, ?_, h5, ?_, ?_, ?_, ?_, ?_⟩
  · intro i hi
    rcases List.mem_cons.mp hi with hi | hi
    · omega
    · have := h2 _ hi; constructor <;> omega
  · intro i hi
    have := h3 _ hi; omega
  · intro i hi
    rcases List.mem_cons.mp hi with hi | hi
    · subst hi; exact hnotsettled
    · exact h4 _ hi
  · rw [List.pairwise_append]
    refine ⟨h6, List.pairwise_singleton _ _, ?_⟩
    intro a ha b hb
    have := h7 _ ha
    simp only [List.mem_singleton] at hb
    omega
  · intro i hi
    rcases List.mem_append.mp hi with hi | hi
    · have := h7 _ hi; omega
    · simp only [List.mem_singleton] at hi; omega
  · intro i hi
    rcases List.mem_cons.mp hi with hi | hi
    · exact List.mem_append.mpr (Or.inr (by simp [hi]))
    · exact List.mem_append.mpr (Or.inl (h8 _ hi))
  · intro i hi
    exact List.mem_append.mpr (Or.inl (h9 _ hi))
  · intro i hi
    rcases List.mem_append.mp hi with hi | hi
    · rcases h10 _ hi with hp | hs
      · exact Or.inl (List.mem_cons.mpr (Or.inr hp))
      · exact Or.inr hs
    · simp only [List.mem_singleton] at hi
      exact Or.inl (List.mem_cons.mpr (Or.inl hi))

theorem invL_settle (counter : Nat) (pending sent : List Nat)
    (settled : List (Nat × Outcome)) (rid : Nat) (o : Outcome)
    (h : InvL counter pending sent settled) (hp : rid ∈ pending) :
    InvL counter (pending.erase rid) sent (settled ++ [(rid, o)]) := by
  obtain ⟨h1, h2, h3, h4, h5, h6, h7, h8, h9, h10⟩ := h
  have hmap : (settled ++ [(rid, o)]).map Prod.fst = settled.map Prod.fst ++ [rid] := by
    simp
  rw [InvL, hmap]
  refine ⟨h1.erase rid, ?_, ?_, ?_, ?_, h6, h7, ?_, ?_, ?_⟩
  · intro i hi
    exact h2 _ (List.mem_of_mem_erase hi)
  · intro i hi
    rcases List.mem_append.mp hi with hi | hi
    · exact h3 _ hi
    · simp only [List.mem_singleton] at hi
      subst hi; exact (h2 _ hp).2
  · intro i hi
    have hi' := (List.Nodup.mem_erase_iff h1).mp hi
    intro hmem
    rcases List.mem_append.mp hmem with hm | hm
    · exact h4 _ hi'.2 hm
    · simp only [List.mem_singleton] at hm
      exact hi'.1 hm
  · simp only [List.nodup_append, List.nodup_cons, List.not_mem_nil, not_false_eq_true,
      List.nodup_nil, and_true, true_and, List.disjoint_singleton]
    exact ⟨h5, h4 _ hp⟩
  · intro i hi
    exact h8 _ (List.mem_of_mem_erase hi)
  · intro i hi
    rcases List.mem_append.mp hi with hi | hi
    · exact h9 _ hi
    · simp only [List.mem_singleton] at hi
      subst hi; exact h8 _ hp
  · intro i hi
    rcases h10 _ hi with hip | his
    · by_cases hir : i = rid
      · exact Or.inr (List.mem_append.mpr (Or.inr (by simp [hir])))
      · exact Or.inl ((List.mem_erase_of_ne hir).mpr hip)
    · exact Or.inr (List.mem_append.mpr (Or.inl his))

theorem inv_step (s : ChannelState) (e : Event) (h : Inv s) : Inv (step s e) := by
  cases e with
  | connect now => exact h
  | heartbeat now => exact h
  | disconnect => exact h
  | checkCrash isRunning now dir =>
    simp only [step, checkForCrash]
    split
    · exact h
    · exact h
  | send =>
    cases hc : s.premiereConnection with
    | none =>
      have hstep : step s Event.send = s := by
        simp [step, sendToPremmiere, hc]
      rw [hstep]; exact h
    | some w =>
      have hstep : step s Event.send
          = { s with requestIdCounter := s.requestIdCounter + 1,
                     timersStarted := s.timersStarted + 1,
                     pending := (s.requestIdCounter + 1) :: s.pending,
                     sent := s.sent ++ [s.requestIdCounter + 1] } := by
        simp [step, sendToPremmiere, hc]
      rw [hstep]
      exact invL_send _ _ _ _ h
  | response rid result error =>
    by_cases hg : rid ≠ 0 ∧ rid ∈ s.pending
    · have hstep : step s (Event.response rid result error)
          = { s with pending := s.pending.erase rid,
                     settled := s.settled ++ [(rid, responseOutcome result error)] } := by
        simp only [step]
        rw [if_pos hg]
      rw [hstep]
      exact invL_settle _ _ _ _ _ _ h hg.2
    · have hstep : step s (Event.response rid result error) = s := by
        simp only [step]
        rw [if_neg hg]
      rw [hstep]; exact h
  | fireTimeout rid =>
    by_cases hg : rid ∈ s.pending
    · have hstep : step s (Event.fireTimeout rid)
          = { s with pending := s.pending.erase rid,
                     settled := s.settled ++ [(rid, Outcome.timedOut)] } := by
        simp only [step]
        rw [if_pos hg]
      rw [hstep]
      exact invL_settle _ _ _ _ _ _ h hg
    · have hstep : step s (Event.fireTimeout rid) = s := by
        simp only [step]
        rw [if_neg hg]
      rw [hstep]; exact h

theorem inv_foldl (es : List Event) (s : ChannelState) (h : Inv s) :
    Inv (es.foldl step s) := by
  induction es generalizing s with
  | nil => exact h
  | cons e es ih => exact ih _ (inv_step s e h)

theorem inv_run (es : List Event) : Inv (run es) := by
  refine inv_foldl es {} ?_
  refine ⟨List.nodup_nil, ?_, ?_, ?_, List.nodup_nil, List.Pairwise.nil, ?_, ?_, ?_, ?_⟩ <;>
    simp [settledIds]

/-- Where a settlement can come from in a trace: a timeout rejection comes from
that id's own timer; a success carries the result of a response bearing the
same id (and a falsy error field); a remote-error rejection carries the
non-empty error string of a response bearing the same id. -/
def SettledFrom (es : List Event) : Nat × Outcome → Prop
  | (i, Outcome.timedOut) => Event.fireTimeout i ∈ es
  | (i, Outcome.success r) => ∃ e, Event.response i r e ∈ es ∧ errTruthy e = false
  | (i, Outcome.remoteError m) => ∃ r, Event.response i r (some m) ∈ es ∧ m ≠ ""

theorem settledFrom_mono (e : Event) (es : List Event) (p : Nat × Outcome)
    (h : SettledFrom es p) : SettledFrom (e :: es) p := by
  obtain ⟨i, o⟩ := p
  cases o with
  | timedOut => exact List.mem_cons.mpr (Or.inr h)
  | success r =>
    obtain ⟨er, hm, he⟩ := h
    exact ⟨er, List.mem_cons.mpr (Or.inr hm), he⟩
  | remoteError m =>
    obtain ⟨r, hm, he⟩ := h
    exact ⟨r, List.mem_cons.mpr (Or.inr hm), he⟩

theorem provenance_aux (es : List Event) (s : ChannelState) :
    ∀ p ∈ (es.foldl step s).settled, p ∈ s.settled ∨ SettledFrom es p := by
  induction es generalizing s with
  | nil => exact fun p hp => Or.inl hp
  | cons e es ih =>
    intro p hp
    rcases ih (step s e) p hp with hmem | hfrom
    · cases e with
      | connect now => exact Or.inl hmem
      | heartbeat now => exact Or.inl hmem
      | disconnect => exact Or.inl hmem
      | checkCrash isRunning now dir =>
        simp only [step, checkForCrash] at hmem
        split at hmem
        · exact Or.inl hmem
        · exact Or.inl hmem
      | send =>
        simp only [step, sendToPremmiere] at hmem
        cases hc : s.premiereConnection with
        | none => rw [hc] at hmem; exact Or.inl hmem
        | some w => rw [hc] at hmem; exact Or.inl hmem
      | response rid result error =>
        simp only [step] at hmem
        split at hmem
        case isTrue hg =>
          simp only [List.mem_append, List.mem_singleton] at hmem
          rcases hmem with hmem | hmem
          · exact Or.inl hmem
          · subst hmem
            right
            simp only [responseOutcome]
            cases herr : errTruthy error with
            | false => exact ⟨error, List.mem_cons_self _ _, herr⟩
            | true =>
              cases error with
              | none => simp [errTruthy] at herr
              | some m =>
                have hm : m ≠ "" := by
                  simpa [errTruthy] using herr
                simp only [herr, if_true, Option.getD_some]
                exact ⟨result, List.mem_cons_self _ _, hm⟩
        case isFalse => exact Or.inl hmem
      | fireTimeout rid =>
        simp only [step] at hmem
        split at hmem
        case isTrue hg =>
          simp only [List.mem_append, List.mem_singleton] at hmem
          rcases hmem with hmem | hmem
          · exact Or.inl hmem
          · subst hmem
            exact Or.inr (List.mem_cons_self _ _)
        case isFalse => exact Or.inl hmem
    · exact Or.inr (settledFrom_mono e es p hfrom)

/-- C1: for every event trace against the channel, (a) the correlation ids
assigned to sends are strictly increasing, hence distinct and never reused;
(b) the pending-request map holds at most one entry per id; (c) each id is
settled at most once; (d) a pending id is not yet settled, and every assigned
id is either still pending or settled; (e) every settlement of an id is either
a timeout rejection from that id's own timer, or carries exactly the payload /
error of a response bearing that same id — never another request's payload;
and (f) any still-pending id is settled (with a timeout) by its timer firing. -/
theorem c1_channel_correlation (es : List Event) :
    (run es).sent.Pairwise (· < ·) ∧
    (run es).pending.Nodup ∧
    (settledIds (run es)).Nodup ∧
    (∀ i ∈ (run es).pending, i ∉ settledIds (run es)) ∧
    (∀ i ∈ (run es).sent, i ∈ (run es).pending ∨ i ∈ settledIds (run es)) ∧
    (∀ p ∈ (run es).settled, SettledFrom es p) ∧
    (∀ i ∈ (run es).pending,
      (step (run es) (Event.fireTimeout i)).settled
        = (run es).settled ++ [(i, Outcome.timedOut)]) := by
  obtain ⟨h1, h2, h3, h4, h5, h6, h7, h8, h9, h10⟩ := inv_run es
  refine ⟨h6, h1, h5, h4, h10, ?_, ?_⟩
  · intro p hp
    rcases provenance_aux es {} p hp with hmem | hfrom
    · simp at hmem
    · exact hfrom
  · intro i hi
    simp [step, hi]

/-- Witness for C1: a trace with two sends; id 1 is settled by its own
response's payload and id 2 by a timeout. -/
theorem c1_channel_correlation_witness :
    (run [Event.connect 5, Event.send, Event.send,
        Event.response 1 (some "payload1") none, Event.fireTimeout 2]).sent.Pairwise (· < ·) ∧
    SettledFrom [Event.connect 5, Event.send, Event.send,
        Event.response 1 (some "payload1") none, Event.fireTimeout 2]
      (1, Outcome.success (some "payload1")) ∧
    SettledFrom [Event.connect 5, Event.send, Event.send,
        Event.response 1 (some "payload1") none, Event.fireTimeout 2]
      (2, Outcome.timedOut) :=
  ⟨(c1_channel_correlation _).1,
   (c1_channel_correlation _).2.2.2.2.2.1 _ (by decide),
   (c1_channel_correlation _).2.2.2.2.2.1 _ (by decide)⟩

/-- C2: a `sendToPremmiere` call made while `premiereConnection` is null fails
immediately and synchronously with the not-connected error, before any timer is
started or any request is queued; it never waits for its timeout. -/
theorem c2_send_not_connected_fails_immediately (s : ChannelState)
    (h : s.premiereConnection = none) :
    sendToPremmiere s = Except.error notConnectedMsg := by
  simp [sendToPremmiere, h]

/-- Witness for C2 at the initial state. -/
theorem c2_send_not_connected_fails_immediately_witness :
    sendToPremmiere {} = Except.error notConnectedMsg :=
  c2_send_not_connected_fails_immediately {} rfl

/-- C10: a `sendToPremmiere` call made while `premiereConnection` is null
leaves all channel state unchanged: the correlation-id counter is not
incremented, no entry is added to the pending-request map, no timer is
created — in fact the whole state is untouched. -/
theorem c10_not_connected_send_leaves_state_unchanged (s : ChannelState)
    (h : s.premiereConnection = none) :
    (step s Event.send).requestIdCounter = s.requestIdCounter ∧
    (step s Event.send).pending = s.pending ∧
    (step s Event.send).timersStarted = s.timersStarted ∧
    step s Event.send = s := by
  simp [step, sendToPremmiere, h]

/-- Witness for C10 at a state with some prior traffic and the connection gone. -/
theorem c10_not_connected_send_leaves_state_unchanged_witness :
    (step (run [Event.connect 5, Event.send, Event.disconnect]) Event.send).requestIdCounter
        = (run [Event.connect 5, Event.send, Event.disconnect]).requestIdCounter ∧
    (step (run [Event.connect 5, Event.send, Event.disconnect]) Event.send).pending
        = (run [Event.connect 5, Event.send, Event.disconnect]).pending ∧
    (step (run [Event.connect 5, Event.send, Event.disconnect]) Event.send).timersStarted
        = (run [Event.connect 5, Event.send, Event.disconnect]).timersStarted ∧
    step (run [Event.connect 5, Event.send, Event.disconnect]) Event.send
        = run [Event.connect 5, Event.send, Event.disconnect] :=
  c10_not_connected_send_leaves_state_unchanged (run [Event.connect 5, Event.send,
    Event.disconnect]) (by decide)

/-- C3: an inbound response whose `requestId` has no entry in `pendingRequests`
is dropped with no effect at all: the handler leaves the state exactly as it
was, so no pending request is resolved or rejected by it and nothing is queued
or retried. -/
theorem c3_unmatched_response_dropped (s : ChannelState) (rid : Nat)
    (result error : Option String) (h : rid ∉ s.pending) :
    step s (Event.response rid result error) = s := by
  simp [step, h]

/-- Witness for C3: a response for id 1 after id 1 already timed out. -/
theorem c3_unmatched_response_dropped_witness :
    step (run [Event.connect 5, Event.send, Event.fireTimeout 1])
        (Event.response 1 (some "late") none)
      = run [Event.connect 5, Event.send, Event.fireTimeout 1] :=
  c3_unmatched_response_dropped _ 1 (some "late") none (by decide)

/-- C4 counterexample: the claim says the caller fails with `RemoteError` iff
the response's `error` field is non-null.  The handler actually tests JS
truthiness (`if (msg.error)`), so a response carrying the non-null empty-string
error `""` resolves the caller successfully with the result payload instead of
rejecting it. -/
theorem c4_counterexample :
    errTruthy (some "") = false ∧
    (step (run [Event.connect 5, Event.send])
        (Event.response 1 (some "payload") (some ""))).settled
      = [(1, Outcome.success (some "payload"))] ∧
    Outcome.success (some "payload") ≠ Outcome.remoteError "" := by
  refine ⟨rfl, by decide, by decide⟩

/-- C4 (amended): for a response that arrives while its request is still
pending, the caller is rejected with `RemoteError` carrying the peer's message
iff the `error` field is non-null *and non-empty* (JS truthiness); otherwise
(error null or `""`) the caller resolves with exactly the peer-supplied result
payload. -/
theorem c4_response_outcome (s : ChannelState) (rid : Nat)
    (result error : Option String) (hid : rid ≠ 0) (hp : rid ∈ s.pending) :
    (step s (Event.response rid result error)).settled
        = s.settled ++ [(rid, responseOutcome result error)] ∧
    (∀ m : String, responseOutcome result error = Outcome.remoteError m ↔
        (error = some m ∧ m ≠ "")) ∧
    (responseOutcome result error = Outcome.success result ↔
        (error = none ∨ error = some "")) := by
  refine ⟨by simp [step, hid, hp], ?_, ?_⟩
  · intro m
    cases error with
    | none => simp [responseOutcome, errTruthy]
    | some e =>
      by_cases he : e = "" <;> simp [responseOutcome, errTruthy, he] <;> aesop
  · cases error with
    | none => simp [responseOutcome, errTruthy]
    | some e =>
      by_cases he : e = "" <;> simp [responseOutcome, errTruthy, he]

/-- Witness for C4 (amended): a pending request rejected by a non-empty error. -/
theorem c4_response_outcome_witness :
    (step (run [Event.connect 5, Event.send])
        (Event.response 1 none (some "boom"))).settled
        = (run [Event.connect 5, Event.send]).settled
            ++ [(1, responseOutcome none (some "boom"))] ∧
    (∀ m : String, responseOutcome none (some "boom") = Outcome.remoteError m ↔
        (some "boom" = some m ∧ m ≠ "")) ∧
    (responseOutcome none (some "boom") = Outcome.success none ↔
        ((some "boom" : Option String) = none ∨ some "boom" = some "")) :=
  c4_response_outcome (run [Event.connect 5, Event.send]) 1 none (some "boom")
    (by decide) (by decide)

/-- Recognizer for heartbeat events, used to state that a trace contains no
heartbeat message. -/
def isHeartbeatEvent : Event → Bool
  | .heartbeat _ => true
  | _ => false

/-- C5 counterexample: the claim says that when no heartbeat message was ever
received, no crash is recorded.  But the connection handler itself sets
`lastHeartbeat = Date.now()` on attach, so after connect (no heartbeat
messages), disconnect and the settle delay with the process absent,
`checkForCrash` records a crash anyway (`lastCrashTime = 7 ≠ 0`). -/
theorem c5_counterexample :
    ([Event.connect 5, Event.disconnect,
        Event.checkCrash false 7 []].any isHeartbeatEvent) = false ∧
    (run [Event.connect 5, Event.disconnect,
        Event.checkCrash false 7 []]).lastCrashTime = 7 ∧
    (7 : Nat) ≠ 0 := by
  decide

/-- C5 (amended): after a disconnect and the settle delay, `checkForCrash`
records a crash (timestamp `now`, log captured via `getLatestCrashLog`) iff the
process is absent and `lastHeartbeat > 0`; `lastHeartbeat` is made positive by
a connection attach as well as by a heartbeat message, so "never truly
connected" means no attach ever happened, not merely no heartbeat message.
If the process still runs, or `lastHeartbeat = 0`, the state is untouched. -/
theorem c5_crash_classification (s : ChannelState) (isRunning : Bool) (now : Nat)
    (dir : List CrashFile) :
    (isRunning = false → 0 < s.lastHeartbeat →
      (checkForCrash isRunning now dir s).lastCrashTime = now ∧
      (checkForCrash isRunning now dir s).lastCrashLog = getLatestCrashLog now dir) ∧
    (isRunning = true → checkForCrash isRunning now dir s = s) ∧
    (s.lastHeartbeat = 0 → checkForCrash isRunning now dir s = s) ∧
    (∀ n, (step s (Event.connect n)).lastHeartbeat = n) ∧
    (∀ n, (step s (Event.heartbeat n)).lastHeartbeat = n) := by
  refine ⟨?_, ?_, ?_, fun n => rfl, fun n => rfl⟩
  · intro hr hh
    simp [checkForCrash, hr, hh]
  · intro hr
    simp [checkForCrash, hr]
  · intro hh
    simp [checkForCrash, hh]

/-- Witness for C5 (amended): process absent after a connect/disconnect pair. -/
theorem c5_crash_classification_witness :
    (checkForCrash false 7 [] (run [Event.connect 5, Event.disconnect])).lastCrashTime = 7 ∧
    (checkForCrash false 7 [] (run [Event.connect 5, Event.disconnect])).lastCrashLog
      = getLatestCrashLog 7 [] :=
  (c5_crash_classification (run [Event.connect 5, Event.disconnect]) false 7 []).1
    rfl (by decide)

theorem mem_insertByMtimeDesc (f a : CrashFile) (l : List CrashFile) :
    a ∈ insertByMtimeDesc f l ↔ a = f ∨ a ∈ l := by
  induction l with
  | nil => simp [insertByMtimeDesc]
  | cons g gs ih =>
    simp only [insertByMtimeDesc]
    split
    · simp [List.mem_cons]
    · simp only [List.mem_cons, ih]
      tauto

theorem pairwise_insertByMtimeDesc (f : CrashFile) (l : List CrashFile)
    (h : l.Pairwise (fun a b => b.mtime ≤ a.mtime)) :
    (insertByMtimeDesc f l).Pairwise (fun a b => b.mtime ≤ a.mtime) := by
  induction l with
  | nil => simp [insertByMtimeDesc]
  | cons g gs ih =>
    rcases List.pairwise_cons.mp h with ⟨hg, hgs⟩
    simp only [insertByMtimeDesc]
    split
    case isTrue hle =>
      refine List.pairwise_cons.mpr ⟨?_, h⟩
      intro b hb
      rcases List.mem_cons.mp hb with hb | hb
      · subst hb; exact hle
      · exact le_trans (hg _ hb) hle
    case isFalse hlt =>
      refine List.pairwise_cons.mpr ⟨?_, ih hgs⟩
      intro b hb
      rcases (mem_insertByMtimeDesc f b gs).mp hb with hb | hb
      · subst hb; omega
      · exact hg _ hb

theorem sorted_sortByMtimeDesc (l : List CrashFile) :
    (sortByMtimeDesc l).Pairwise (fun a b => b.mtime ≤ a.mtime) := by
  induction l with
  | nil => simp [sortByMtimeDesc]
  | cons f fs ih => exact pairwise_insertByMtimeDesc f _ ih

theorem mem_sortByMtimeDesc (a : CrashFile) (l : List CrashFile) :
    a ∈ sortByMtimeDesc l ↔ a ∈ l := by
  induction l with
  | nil => simp [sortByMtimeDesc]
  | cons f fs ih =>
    simp only [sortByMtimeDesc, mem_insertByMtimeDesc, List.mem_cons, ih]

/-- C6: `getLatestCrashLog` considers only the most recently modified candidate
crash-report file: when there are no candidates the result is `""`; otherwise
the head `f` of the newest-first ordering dominates every candidate's mtime,
the result is `f`'s text capped at the fixed budget if `f` is within the 60 s
recency window, and `""` if even `f` is older than the window — it never falls
back to any other candidate, within the window or not. -/
theorem c6_latest_crash_log (now : Nat) (dir : List CrashFile) :
    (sortByMtimeDesc (dir.filter isCrashCandidate) = [] →
      getLatestCrashLog now dir = "") ∧
    (∀ f rest, sortByMtimeDesc (dir.filter isCrashCandidate) = f :: rest →
      (∀ g ∈ dir.filter isCrashCandidate, g.mtime ≤ f.mtime) ∧
      (now - 60000 < f.mtime → getLatestCrashLog now dir = capCrashLog f.content) ∧
      (f.mtime ≤ now - 60000 → getLatestCrashLog now dir = "")) := by
  constructor
  · intro hnil
    simp [getLatestCrashLog, hnil]
  · intro f rest hsort
    refine ⟨?_, ?_, ?_⟩
    · intro g hg
      have hmem : g ∈ sortByMtimeDesc (dir.filter isCrashCandidate) :=
        (mem_sortByMtimeDesc g _).mpr hg
      rw [hsort] at hmem
      rcases List.mem_cons.mp hmem with hmem | hmem
      · subst hmem; exact le_refl _
      · have hsorted := sorted_sortByMtimeDesc (dir.filter isCrashCandidate)
        rw [hsort] at hsorted
        exact (List.pairwise_cons.mp hsorted).1 _ hmem
    · intro hwin
      simp [getLatestCrashLog, hsort, hwin]
    · intro hold
      have : ¬ (now - 60000 < f.mtime) := by omega
      simp [getLatestCrashLog, hsort, this]

/-- Witness for C6: two candidates, the newest within the window wins. -/
theorem c6_latest_crash_log_witness :
    getLatestCrashLog 100000
        [⟨"Adobe Premiere Pro_1.crash", 90000, "fresh log"⟩,
         ⟨"Adobe Premiere Pro_0.crash", 10000, "stale log"⟩]
      = capCrashLog "fresh log" :=
  ((c6_latest_crash_log 100000
      [⟨"Adobe Premiere Pro_1.crash", 90000, "fresh log"⟩,
       ⟨"Adobe Premiere Pro_0.crash", 10000, "stale log"⟩]).2
    ⟨"Adobe Premiere Pro_1.crash", 90000, "fresh log"⟩
    [⟨"Adobe Premiere Pro_0.crash", 10000, "stale log"⟩] (by decide)).2.1 (by decide)

/-- The `{success, error}` shape of a remote (CEP-panel) command result, as the
pipeline consumes it (`result.success`, `result.error`). -/
structure RemoteResult where
  success : Bool
  error : Option String := none
deriving DecidableEq, Repr

/-- The `{success, message}` result of `restartPremiere`. -/
structure RestartResult where
  success : Bool
  message : String
deriving DecidableEq, Repr

/-- `startDialogWatcher`: `if (dialogWatcherInterval) return;` then start the
2 s interval — afterwards the watcher is running either way. -/
def startDialogWatcher (_w : Bool) : Bool :=
  true

/-- `stopDialogWatcher`: clear the interval (no-op if not running) — afterwards
the watcher is not running. -/
def stopDialogWatcher (_w : Bool) : Bool :=
  false

/-- The `while (Date.now() - start < 60000)` poll of `restartPremiere` waiting
for `premiereConnection`, one iteration per second (`connAt i` is whether the
CEP panel is attached at poll `i`); both exits stop the dialog watcher.
Returns the `{success, message}` result and the watcher state. -/
def awaitPeerLoop (connAt : Nat → Bool) (w : Bool) : Nat → Nat → RestartResult × Bool
  | _, 0 =>
    (⟨false, "Premiere started but CEP panel did not connect within 60s. Make sure to open Window > Extensions > MoshBrosh MCP Bridge"⟩,
     stopDialogWatcher w)
  | i, fuel + 1 =>
    if connAt i then
      (⟨true, "Premiere restarted and CEP panel connected"⟩, stopDialogWatcher w)
    else awaitPeerLoop connAt w (i + 1) fuel

/-- The external world as `restartPremiere` observes it: whether
`waitForPremiereReady(90000)` reports ready, and whether the CEP panel is
connected at each second of the 60 s reconnection poll. -/
structure RestartEnv where
  ready : Bool
  connAt : Nat → Bool

/-- `restartPremiere`: start the dialog watcher, kill / settle / dismiss /
relaunch (external effects), wait for readiness; on readiness failure stop the
watcher and fail, otherwise poll for the CEP panel connection for 60 s, every
exit of which stops the watcher. -/
def restartPremiere (env : RestartEnv) (w : Bool) : RestartResult × Bool :=
  let w1 := startDialogWatcher w
  if env.ready then awaitPeerLoop env.connAt w1 0 60
  else (⟨false, "Premiere did not become ready within 90s"⟩, stopDialogWatcher w1)

theorem awaitPeerLoop_stops_watcher (connAt : Nat → Bool) (w : Bool)
    (i fuel : Nat) : (awaitPeerLoop connAt w i fuel).2 = false := by
  induction fuel generalizing i with
  | zero => rfl
  | succ fuel ih =>
    simp only [awaitPeerLoop]
    split
    · rfl
    · exact ih (i + 1)

/-- C9: on every exit path of `restartPremiere` — readiness deadline failure,
reconnection success, or reconnection deadline failure — the background dialog
watcher started at the beginning of the run has been stopped by the time the
run returns (and it was indeed running during the run). -/
theorem c9_watcher_stopped_on_every_exit (env : RestartEnv) (w : Bool) :
    (restartPremiere env w).2 = false ∧ startDialogWatcher w = true := by
  refine ⟨?_, rfl⟩
  unfold restartPremiere
  split
  · exact awaitPeerLoop_stops_watcher env.connAt _ 0 60
  · rfl

/-- One record of `results.steps` (`{step, status, result}`); statuses that
occur are `"starting"`, `"success"`, `"failed"`. -/
structure StepRec where
  step : String
  status : String
  restartResult : Option RestartResult := none
  remoteResult : Option RemoteResult := none
deriving DecidableEq, Repr

/-- The `results` object returned by `runAutonomousTestCycle`. -/
structure CycleReport where
  steps : List StepRec
  success : Bool
  error : Option String
deriving DecidableEq, Repr

/-- The external world as one pipeline run observes it: the initial
`premiereConnection`, the outcome of `restartPremiere`, the remote command
results (`Except` for a `sendToPremmiere` rejection caught by the outer
`try`), the pair of export-file size samples taken at poll attempt `i`
(`none` while the file does not exist), and the `analyzeExportedVideo`
result (that function catches internally and never throws). -/
structure PipelineEnv where
  connected : Bool
  restart : RestartResult
  openProject : Except String RemoteResult
  applyEffect : Except String RemoteResult
  exportSequence : Except String RemoteResult
  samples : Nat → Option (Nat × Nat)
  analysis : RemoteResult

/-- JS template interpolation of a possibly-undefined `result.error`. -/
def errStr : Option String → String
  | some s => s
  | none => "undefined"

/-- JS `status = r.success ? "success" : "failed"`. -/
def statusOf (b : Bool) : String :=
  if b then "success" else "failed"

/-- The export-readiness poll of step 6: up to `fuel` (60) attempts; if the
file exists, sample its size twice 2 s apart and stop as soon as the two
samples are equal and non-zero. -/
def exportPoll (samples : Nat → Option (Nat × Nat)) : Nat → Nat → Bool
  | _, 0 => false
  | i, fuel + 1 =>
    match samples i with
    | some (size1, size2) =>
      if size1 = size2 ∧ 0 < size1 then true else exportPoll samples (i + 1) fuel
    | none => exportPoll samples (i + 1) fuel

/-- Step 6 (`analyze_export`): push the record, run the export-readiness poll;
on failure mark the step failed with the export-not-ready error; otherwise run
`analyzeExportedVideo` and let its `success` decide the run. -/
def step6Analyze (env : PipelineEnv) (steps0 : List StepRec) : CycleReport :=
  if exportPoll env.samples 0 60 then
    let recA : StepRec :=
      { step := "analyze_export",
        status := statusOf env.analysis.success, remoteResult := some env.analysis }
    { steps := steps0 ++ [recA],
      success := env.analysis.success,
      error := none }
  else
    let recA : StepRec := { step := "analyze_export", status := "failed" }
    { steps := steps0 ++ [recA],
      success := false,
      error := some "Export file not ready after 60s" }

/-- Step 5 (`export_sequence`). -/
def step5Export (env : PipelineEnv) (steps0 : List StepRec) : CycleReport :=
  match env.exportSequence with
  | .error msg =>
    let recS : StepRec := { step := "export_sequence", status := "starting" }
    { steps := steps0 ++ [recS],
      success := false, error := some msg }
  | .ok r =>
    let recS : StepRec :=
      { step := "export_sequence",
        status := statusOf r.success, remoteResult := some r }
    let steps1 := steps0 ++ [recS]
    if r.success then step6Analyze env steps1
    else { steps := steps1, success := false,
           error := some ("Failed to export: " ++ errStr r.error) }

/-- Step 4 (`wait_for_processing`): a fixed local wait, always marked success. -/
def step4Wait (env : PipelineEnv) (steps0 : List StepRec) : CycleReport :=
  let recW : StepRec := { step := "wait_for_processing", status := "success" }
  step5Export env (steps0 ++ [recW])

/-- Step 3 (`apply_effect`). -/
def step3Apply (env : PipelineEnv) (steps0 : List StepRec) : CycleReport :=
  match env.applyEffect with
  | .error msg =>
    let recS : StepRec := { step := "apply_effect", status := "starting" }
    { steps := steps0 ++ [recS],
      success := false, error := some msg }
  | .ok r =>
    let recS : StepRec :=
      { step := "apply_effect",
        status := statusOf r.success, remoteResult := some r }
    let steps1 := steps0 ++ [recS]
    if r.success then step4Wait env steps1
    else { steps := steps1, success := false,
           error := some ("Failed to apply effect: " ++ errStr r.error) }

/-- Step 2 (`open_project`). -/
def step2Open (env : PipelineEnv) (steps0 : List StepRec) : CycleReport :=
  match env.openProject with
  | .error msg =>
    let recS : StepRec := { step := "open_project", status := "starting" }
    { steps := steps0 ++ [recS],
      success := false, error := some msg }
  | .ok r =>
    let recS : StepRec :=
      { step := "open_project",
        status := statusOf r.success, remoteResult := some r }
    let steps1 := steps0 ++ [recS]
    if r.success then step3Apply env steps1
    else { steps := steps1, success := false,
           error := some ("Failed to open project: " ++ errStr r.error) }

/-- `runAutonomousTestCycle`: step 1 (restart if not connected, aborting the
run on failure) followed by the step 2–6 chain; each early return carries the
records of the steps actually entered, `success = false` and the step-specific
`error`. -/
def runAutonomousTestCycle (env : PipelineEnv) : CycleReport :=
  if env.connected then step2Open env []
  else
    let rr := env.restart
    let rec1 : StepRec :=
      { step := "restart_premiere",
        status := statusOf rr.success, restartResult := some rr }
    if rr.success then step2Open env [rec1]
    else { steps := [rec1], success := false, error := some "Failed to start Premiere" }

/-- The step record pushed for a successful remote step. -/
def okRec (name : String) (r : RemoteResult) : StepRec :=
  { step := name, status := "success", remoteResult := some r }

/-- The step record pushed for a failed remote step. -/
def failedRec (name : String) (r : RemoteResult) : StepRec :=
  { step := name, status := "failed", remoteResult := some r }

/-- The step record of the fixed processing wait. -/
def waitRec : StepRec :=
  { step := "wait_for_processing", status := "success" }

/-- Environment for the C7 counterexample: Premiere connected, `open_project`
fails with error text `"boom"`, everything later would succeed. -/
def c7Env : PipelineEnv :=
  { connected := true,
    restart := ⟨true, "unused"⟩,
    openProject := .ok ⟨false, some "boom"⟩,
    applyEffect := .ok ⟨true, none⟩,
    exportSequence := .ok ⟨true, none⟩,
    samples := fun _ => none,
    analysis := ⟨true, none⟩ }

/-- C7 counterexample: with step A (ensure-connected) succeeding and step B
(`open_project`) failing with error text `"boom"`, the run does stop and
`overallSuccess` is false, but `firstError` is the prefixed message
`"Failed to open project: boom"`, not B's error text `"boom"`, and the
never-invoked later steps (e.g. `apply_effect`) have no record at all in the
returned report — there is no `pending` status. -/
theorem c7_counterexample :
    (runAutonomousTestCycle c7Env).success = false ∧
    (runAutonomousTestCycle c7Env).error = some "Failed to open project: boom" ∧
    (some "Failed to open project: boom" : Option String) ≠ some "boom" ∧
    (runAutonomousTestCycle c7Env).steps.map StepRec.step = ["open_project"] ∧
    ((runAutonomousTestCycle c7Env).steps.map StepRec.step).contains "apply_effect"
      = false := by
  decide

/-- The step-1 records of a run that gets past step 1: no record when the CEP
panel was already connected (the restart branch is skipped entirely), the
successful `restart_premiere` record otherwise. -/
def step1Prefix (env : PipelineEnv) : List StepRec :=
  if env.connected then []
  else [{ step := "restart_premiere", status := "success", restartResult := some env.restart }]

theorem runCycle_reaches_step2 (env : PipelineEnv)
    (hstart : env.connected = true ∨ env.restart.success = true) :
    runAutonomousTestCycle env = step2Open env (step1Prefix env) := by
  by_cases hc : env.connected = true
  · simp [runAutonomousTestCycle, step1Prefix, hc]
  · simp only [Bool.not_eq_true] at hc
    have hr : env.restart.success = true := by
      rcases hstart with h | h
      · rw [hc] at h; exact absurd h (by simp)
      · exact h
    simp [runAutonomousTestCycle, step1Prefix, hc, hr, statusOf]

/-- C7 (amended): whenever a step fails in a run — whether the run started
connected or reached step 2 through a successful restart — the run stops
immediately: `overallSuccess` is false, no later step is executed and no
record for any later step appears in the report (never-invoked steps are
absent, not `pending`), and `firstError` is the step-specific failure
message: the fixed `"Failed to start Premiere"` for a restart failure,
`"Failed to <verb>: "` followed by the step's error text for the remote
steps, the fixed export-not-ready message for the readiness poll, and `null`
(no error at all) when the final analysis step fails. -/
theorem c7_abort_on_first_failure (env : PipelineEnv) :
    (env.connected = false → env.restart.success = false →
      runAutonomousTestCycle env =
        { steps := [{ step := "restart_premiere", status := "failed", restartResult := some env.restart }],
          success := false,
          error := some "Failed to start Premiere" }) ∧
    (∀ r, (env.connected = true ∨ env.restart.success = true) →
      env.openProject = Except.ok r → r.success = false →
      runAutonomousTestCycle env =
        { steps := step1Prefix env ++ [failedRec "open_project" r],
          success := false,
          error := some ("Failed to open project: " ++ errStr r.error) }) ∧
    (∀ ro r, (env.connected = true ∨ env.restart.success = true) →
      env.openProject = Except.ok ro → ro.success = true →
      env.applyEffect = Except.ok r → r.success = false →
      runAutonomousTestCycle env =
        { steps := step1Prefix env ++ [okRec "open_project" ro, failedRec "apply_effect" r],
          success := false,
          error := some ("Failed to apply effect: " ++ errStr r.error) }) ∧
    (∀ ro ra r, (env.connected = true ∨ env.restart.success = true) →
      env.openProject = Except.ok ro → ro.success = true →
      env.applyEffect = Except.ok ra → ra.success = true →
      env.exportSequence = Except.ok r → r.success = false →
      runAutonomousTestCycle env =
        { steps := step1Prefix env ++ [okRec "open_project" ro, okRec "apply_effect" ra, waitRec, failedRec "export_sequence" r],
          success := false,
          error := some ("Failed to export: " ++ errStr r.error) }) ∧
    (∀ ro ra re, (env.connected = true ∨ env.restart.success = true) →
      env.openProject = Except.ok ro → ro.success = true →
      env.applyEffect = Except.ok ra → ra.success = true →
      env.exportSequence = Except.ok re → re.success = true →
      exportPoll env.samples 0 60 = false →
      runAutonomousTestCycle env =
        { steps := step1Prefix env ++ [okRec "open_project" ro, okRec "apply_effect" ra, waitRec, okRec "export_sequence" re, { step := "analyze_export", status := "failed" }],
          success := false,
          error := some "Export file not ready after 60s" }) ∧
    (∀ ro ra re, (env.connected = true ∨ env.restart.success = true) →
      env.openProject = Except.ok ro → ro.success = true →
      env.applyEffect = Except.ok ra → ra.success = true →
      env.exportSequence = Except.ok re → re.success = true →
      exportPoll env.samples 0 60 = true → env.analysis.success = false →
      runAutonomousTestCycle env =
        { steps := step1Prefix env ++ [okRec "open_project" ro, okRec "apply_effect" ra, waitRec, okRec "export_sequence" re, failedRec "analyze_export" env.analysis],
          success := false,
          error := none }) := by
  refine ⟨?_, ?_, ?_, ?_, ?_, ?_⟩
  · intro hc hr
    simp [runAutonomousTestCycle, hc, hr, statusOf]
  · intro r hstart ho hf
    rw [runCycle_reaches_step2 env hstart]
    simp [step2Open, ho, hf, statusOf, failedRec]
  · intro ro r hstart ho hos ha hf
    rw [runCycle_reaches_step2 env hstart]
    simp [step2Open, ho, hos, step3Apply, ha, hf, statusOf, okRec, failedRec]
  · intro ro ra r hstart ho hos ha has he hf
    rw [runCycle_reaches_step2 env hstart]
    simp [step2Open, ho, hos, step3Apply, ha, has, step4Wait, step5Export, he,
      hf, statusOf, okRec, failedRec, waitRec]
  · intro ro ra re hstart ho hos ha has he hes hpoll
    rw [runCycle_reaches_step2 env hstart]
    simp [step2Open, ho, hos, step3Apply, ha, has, step4Wait, step5Export, he,
      hes, step6Analyze, hpoll, statusOf, okRec, failedRec, waitRec]
  · intro ro ra re hstart ho hos ha has he hes hpoll hana
    rw [runCycle_reaches_step2 env hstart]
    simp [step2Open, ho, hos, step3Apply, ha, has, step4Wait, step5Export, he,
      hes, step6Analyze, hpoll, hana, statusOf, okRec, failedRec, waitRec]

/-- Environment for the C7 witness: not connected initially, `restartPremiere`
succeeds, then `open_project` fails with error text `"boom"`. -/
def c7EnvRestart : PipelineEnv :=
  { connected := false,
    restart := ⟨true, "Premiere restarted and CEP panel connected"⟩,
    openProject := .ok ⟨false, some "boom"⟩,
    applyEffect := .ok ⟨true, none⟩,
    exportSequence := .ok ⟨true, none⟩,
    samples := fun _ => none,
    analysis := ⟨true, none⟩ }

/-- Witness for C7 (amended): the `open_project`-fails conjunct on a run that
starts disconnected and reaches step 2 through a successful restart. -/
theorem c7_abort_on_first_failure_witness :
    runAutonomousTestCycle c7EnvRestart =
      { steps := step1Prefix c7EnvRestart ++ [failedRec "open_project" ⟨false, some "boom"⟩],
        success := false,
        error := some ("Failed to open project: " ++ errStr (some "boom")) } :=
  (c7_abort_on_first_failure c7EnvRestart).2.1 ⟨false, some "boom"⟩
    (Or.inr rfl) rfl rfl

/-- Two equal, non-zero consecutive size samples at poll attempt `k`. -/
def StableAt (samples : Nat → Option (Nat × Nat)) (k : Nat) : Prop :=
  ∃ p : Nat × Nat, samples k = some p ∧ p.1 = p.2 ∧ 0 < p.1

theorem exportPoll_eq_true_iff (samples : Nat → Option (Nat × Nat)) (i fuel : Nat) :
    exportPoll samples i fuel = true ↔ ∃ j, j < fuel ∧ StableAt samples (i + j) := by
  induction fuel generalizing i with
  | zero => simp [exportPoll]
  | succ fuel ih =>
    simp only [exportPoll]
    have shift : ∀ j, i + 1 + j = i + (j + 1) := fun j => by omega
    cases hs : samples i with
    | none =>
      dsimp only
      rw [ih]
      constructor
      · rintro ⟨j, hj, hstab⟩
        exact ⟨j + 1, by omega, by rwa [shift] at hstab⟩
      · rintro ⟨j, hj, hstab⟩
        cases j with
        | zero =>
          obtain ⟨p, hp, _, _⟩ := hstab
          rw [Nat.add_zero, hs] at hp
          exact absurd hp (by simp)
        | succ j =>
          exact ⟨j, by omega, by rwa [shift]⟩
    | some p =>
      obtain ⟨size1, size2⟩ := p
      dsimp only
      by_cases hstable : size1 = size2 ∧ 0 < size1
      · rw [if_pos hstable]
        constructor
        · intro _
          exact ⟨0, by omega, ⟨(size1, size2), by simpa using hs, hstable.1, hstable.2⟩⟩
        · intro _
          rfl
      · rw [if_neg hstable, ih]
        constructor
        · rintro ⟨j, hj, hstab⟩
          exact ⟨j + 1, by omega, by rwa [shift] at hstab⟩
        · rintro ⟨j, hj, hstab⟩
          cases j with
          | zero =>
            obtain ⟨p, hp, hpq, hpos⟩ := hstab
            rw [Nat.add_zero, hs] at hp
            obtain rfl : p = (size1, size2) := by simpa using hp.symm
            exact absurd ⟨hpq, hpos⟩ hstable
          | succ j =>
            exact ⟨j, by omega, by rwa [shift]⟩

/-- C8: the export-readiness poll declares the artifact stable exactly when
some attempt among the 60 allowed finds two consecutive size samples that are
equal and non-zero; and if no attempt ever does while every earlier pipeline
step succeeded, the `analyze_export` step fails and the run's error is the
export-not-ready message. -/
theorem c8_export_readiness (env : PipelineEnv) :
    (exportPoll env.samples 0 60 = true ↔
      ∃ j, j < 60 ∧ StableAt env.samples j) ∧
    (∀ ro ra re, env.connected = true →
      env.openProject = Except.ok ro → ro.success = true →
      env.applyEffect = Except.ok ra → ra.success = true →
      env.exportSequence = Except.ok re → re.success = true →
      exportPoll env.samples 0 60 = false →
      (runAutonomousTestCycle env).error = some "Export file not ready after 60s" ∧
      (runAutonomousTestCycle env).success = false ∧
      (runAutonomousTestCycle env).steps.getLast?
        = some { step := "analyze_export", status := "failed" }) := by
  constructor
  · simpa using exportPoll_eq_true_iff env.samples 0 60
  · intro ro ra re hc ho hos ha has he hes hpoll
    simp [runAutonomousTestCycle, hc, step2Open, ho, hos, step3Apply, ha, has,
      step4Wait, step5Export, he, hes, step6Analyze, hpoll, statusOf]

/-- Environment for the C8 witness: every remote step succeeds but the export
file keeps growing (the two samples always differ), so readiness is never
declared. -/
def c8Env : PipelineEnv :=
  { connected := true,
    restart := ⟨true, "unused"⟩,
    openProject := .ok ⟨true, none⟩,
    applyEffect := .ok ⟨true, none⟩,
    exportSequence := .ok ⟨true, none⟩,
    samples := fun _ => some (1, 2),
    analysis := ⟨true, none⟩ }

/-- Witness for C8: the still-growing file fails the step with the
export-not-ready error. -/
theorem c8_export_readiness_witness :
    (runAutonomousTestCycle c8Env).error = some "Export file not ready after 60s" ∧
    (runAutonomousTestCycle c8Env).success = false ∧
    (runAutonomousTestCycle c8Env).steps.getLast?
      = some { step := "analyze_export", status := "failed" } :=
  (c8_export_readiness c8Env).2 ⟨true, none⟩ ⟨true, none⟩ ⟨true, none⟩
    rfl rfl rfl rfl rfl rfl rfl (by decide)

end PremiereMCP
